import Mathlib

/-!
# Loan management service: shallow embedding

A shallow embedding of a small CRUD service over loan records
(`app/main.py`, `app/models.py`, `app/schemas.py`) together with its
HTTP client library (`client/loan_client.py`).

Modelling conventions:

* Python floats are modelled as `Rat`.  All the service ever does with the
  float-valued fields is compare them with `0` and store them, so the
  embedding is exact for the properties considered here.
* The relational store (`app/models.py`: one table `loans` keyed by an
  integer autoincrement primary key) is modelled as a `Store`: the list of
  persisted rows in insertion order.  The id assigned to a fresh row is
  one more than the largest id in use (SQLite rowid assignment), hence
  strictly larger than every stored id.
* Each HTTP endpoint becomes a pure function from request data and store
  to a result and a (possibly updated) store.  FastAPI runs the pydantic
  schema validation before the handler body; the embedding performs the
  same validation first and returns the 422 outcome when it fails.
-/

/-- `app/models.py`, class `Loan`: one persisted row of the `loans` table.
`id` is the integer primary key; the four business columns are non-nullable. -/
structure Loan where
  id : Int
  amount : Rat
  interest_rate : Rat
  length_months : Int
  monthly_payment : Rat
deriving Repr, DecidableEq

/-- `app/schemas.py`, class `LoanCreate` (= `LoanBase`): the create request
body, all four fields required. -/
structure LoanCreate where
  amount : Rat
  interest_rate : Rat
  length_months : Int
  monthly_payment : Rat
deriving Repr, DecidableEq

/-- `app/schemas.py`, class `LoanUpdate`: the update request body, all four
fields optional (`none` = the field is absent from the payload). -/
structure LoanUpdate where
  amount : Option Rat
  interest_rate : Option Rat
  length_months : Option Int
  monthly_payment : Option Rat
deriving Repr, DecidableEq

/-- One entry of a pydantic 422 validation report: the offending field's
name and the constraint it violated. -/
structure FieldError where
  loc : String
  msg : String
deriving Repr, DecidableEq

/-- Pydantic validation of `LoanCreate` (`app/schemas.py` lines 15-30):
`amount` gt=0, `interest_rate` ge=0, `length_months` gt=0,
`monthly_payment` gt=0.  Returns the list of violations, in field order;
empty list means the input is accepted. -/
def validateLoanCreate (c : LoanCreate) : List FieldError :=
  (if 0 < c.amount then [] else [⟨"amount", "Input should be greater than 0"⟩]) ++
  (if 0 ≤ c.interest_rate then [] else
    [⟨"interest_rate", "Input should be greater than or equal to 0"⟩]) ++
  (if 0 < c.length_months then [] else [⟨"length_months", "Input should be greater than 0"⟩]) ++
  (if 0 < c.monthly_payment then [] else [⟨"monthly_payment", "Input should be greater than 0"⟩])

/-- Pydantic validation of `LoanUpdate` (`app/schemas.py` lines 33-41):
the same per-field bounds, checked only on the fields present in the
payload. -/
def validateLoanUpdate (u : LoanUpdate) : List FieldError :=
  (match u.amount with
   | none => []
   | some a => if 0 < a then [] else [⟨"amount", "Input should be greater than 0"⟩]) ++
  (match u.interest_rate with
   | none => []
   | some r => if 0 ≤ r then [] else
      [⟨"interest_rate", "Input should be greater than or equal to 0"⟩]) ++
  (match u.length_months with
   | none => []
   | some m => if 0 < m then [] else [⟨"length_months", "Input should be greater than 0"⟩]) ++
  (match u.monthly_payment with
   | none => []
   | some p => if 0 < p then [] else [⟨"monthly_payment", "Input should be greater than 0"⟩])

/-- The persistent store: the rows of the `loans` table in insertion order. -/
structure Store where
  loans : List Loan
deriving Repr, DecidableEq

/-- The empty store (fresh database). -/
def Store.empty : Store := ⟨[]⟩

/-- The id the storage layer assigns to the next inserted row: one more
than the largest id in use (SQLite rowid assignment for an
`Integer primary_key` column), `1` on an empty table. -/
def Store.nextId (db : Store) : Int :=
  (db.loans.map Loan.id).foldr max 0 + 1

/-- `db.query(Loan).filter(Loan.id == loan_id).first()`: the first stored
row whose id matches. -/
def Store.findLoan (db : Store) (loan_id : Int) : Option Loan :=
  db.loans.find? fun l => l.id == loan_id

/-- Outcome of `POST /loans` (`app/main.py`, `create_loan`). -/
inductive CreateResult where
  | created (loan : Loan)
  | validationError (errors : List FieldError)
deriving Repr, DecidableEq

/-- HTTP status attached to each `create` outcome (`status_code=201` on the
route; FastAPI returns 422 on schema validation failure). -/
def CreateResult.status : CreateResult → Nat
  | .created _ => 201
  | .validationError _ => 422

/-- Outcome of `GET /loans/{loan_id}` (`app/main.py`, `get_loan`). -/
inductive GetResult where
  | ok (loan : Loan)
  | notFound (detail : String)
deriving Repr, DecidableEq

/-- HTTP status of each `get` outcome (200, or the 404 `HTTPException`). -/
def GetResult.status : GetResult → Nat
  | .ok _ => 200
  | .notFound _ => 404

/-- Outcome of `PUT /loans/{loan_id}` (`app/main.py`, `update_loan`). -/
inductive UpdateResult where
  | ok (loan : Loan)
  | notFound (detail : String)
  | validationError (errors : List FieldError)
deriving Repr, DecidableEq

/-- HTTP status of each `update` outcome. -/
def UpdateResult.status : UpdateResult → Nat
  | .ok _ => 200
  | .notFound _ => 404
  | .validationError _ => 422

/-- Outcome of `DELETE /loans/{loan_id}` (`app/main.py`, `delete_loan`).
`noContent` is the empty-body success. -/
inductive DeleteResult where
  | noContent
  | notFound (detail : String)
deriving Repr, DecidableEq

/-- HTTP status of each `delete` outcome (`status_code=204` on the route). -/
def DeleteResult.status : DeleteResult → Nat
  | .noContent => 204
  | .notFound _ => 404

/-- The row built by `models.Loan(**loan_dict)` once the id is assigned. -/
def mkLoan (i : Int) (c : LoanCreate) : Loan :=
  { id := i
    amount := c.amount
    interest_rate := c.interest_rate
    length_months := c.length_months
    monthly_payment := c.monthly_payment }

/-- `POST /loans` (`app/main.py` lines 30-56): pydantic validates the body;
on success the row is built, inserted, given its id, and returned with 201;
on validation failure FastAPI answers 422 and the handler never runs, so
the store is untouched. -/
def create_loan (loan : LoanCreate) (db : Store) : CreateResult × Store :=
  let errs := validateLoanCreate loan
  if errs.isEmpty then
    let db_loan := mkLoan db.nextId loan
    (CreateResult.created db_loan, ⟨db.loans ++ [db_loan]⟩)
  else
    (CreateResult.validationError errs, db)

/-- `GET /loans/{loan_id}` (`app/main.py` lines 59-74): look up by id,
404 `"Loan not found"` when absent.  A read: the store is not changed. -/
def get_loan (loan_id : Int) (db : Store) : GetResult :=
  match db.findLoan loan_id with
  | none => GetResult.notFound "Loan not found"
  | some db_loan => GetResult.ok db_loan

/-- `setattr(db_loan, key, value)` for each key of
`loan.model_dump(exclude_unset=True)`: overwrite exactly the fields present
in the payload, keep the rest. -/
def applyUpdate (l : Loan) (u : LoanUpdate) : Loan :=
  { id := l.id
    amount := u.amount.getD l.amount
    interest_rate := u.interest_rate.getD l.interest_rate
    length_months := u.length_months.getD l.length_months
    monthly_payment := u.monthly_payment.getD l.monthly_payment }

/-- Replace the first row matching `loan_id` by its updated version: the
handler mutates the single ORM object returned by `.first()` and commits. -/
def updateFirst (loans : List Loan) (loan_id : Int) (u : LoanUpdate) : List Loan :=
  match loans with
  | [] => []
  | l :: rest =>
    if l.id == loan_id then applyUpdate l u :: rest
    else l :: updateFirst rest loan_id u

/-- `PUT /loans/{loan_id}` (`app/main.py` lines 77-102): pydantic validates
the body first (422 on a present field out of bound); then look up by id
(404 when absent, nothing written); otherwise set exactly the provided
fields on the fetched row, commit, and return the updated row with 200. -/
def update_loan (loan_id : Int) (loan : LoanUpdate) (db : Store) :
    UpdateResult × Store :=
  let errs := validateLoanUpdate loan
  if errs.isEmpty then
    match db.findLoan loan_id with
    | none => (UpdateResult.notFound "Loan not found", db)
    | some db_loan =>
      (UpdateResult.ok (applyUpdate db_loan loan), ⟨updateFirst db.loans loan_id loan⟩)
  else
    (UpdateResult.validationError errs, db)

/-- `GET /loans` (`app/main.py` lines 105-115):
`db.query(Loan).offset(skip).limit(limit).all()` over the rows in
storage (insertion/id) order. -/
def list_loans (skip : Nat) (limit : Nat) (db : Store) : List Loan :=
  (db.loans.drop skip).take limit

/-- Default of the `skip` query parameter (`skip: int = 0`). -/
def DEFAULT_SKIP : Nat := 0

/-- Default of the `limit` query parameter (`limit: int = 100`). -/
def DEFAULT_LIMIT : Nat := 100

/-- Remove the first row matching `loan_id`: the handler deletes the single
ORM object returned by `.first()` and commits. -/
def deleteFirst (loans : List Loan) (loan_id : Int) : List Loan :=
  match loans with
  | [] => []
  | l :: rest => if l.id == loan_id then rest else l :: deleteFirst rest loan_id

/-- `DELETE /loans/{loan_id}` (`app/main.py` lines 117-135): look up by id,
404 `"Loan not found"` when absent; otherwise remove the row and answer
204 with an empty body. -/
def delete_loan (loan_id : Int) (db : Store) : DeleteResult × Store :=
  match db.findLoan loan_id with
  | none => (DeleteResult.notFound "Loan not found", db)
  | some _ => (DeleteResult.noContent, ⟨deleteFirst db.loans loan_id⟩)

/-- `GET /` (`app/main.py` lines 24-27): the health check body and status.
The handler takes no database dependency at all. -/
def read_root : Nat × String :=
  (200, "LoanStreet Loan Management API is running")

/-- Dispatch of `GET /` against a store: the handler has no `db` parameter,
so the response is computed from nothing and the store passes through. -/
def handle_root (db : Store) : (Nat × String) × Store :=
  (read_root, db)

/-- The per-field bounds of a persisted row, as a decidable check:
amount > 0, interest_rate >= 0, length_months > 0, monthly_payment > 0. -/
def Loan.validb (l : Loan) : Bool :=
  decide (0 < l.amount) && decide (0 ≤ l.interest_rate) &&
  decide (0 < l.length_months) && decide (0 < l.monthly_payment)

/-- The update payload with no field present (`PUT` body `{}`). -/
def emptyUpdate : LoanUpdate :=
  { amount := none, interest_rate := none, length_months := none, monthly_payment := none }

/-- Stores reachable from the fresh database by any sequence of create,
update and delete requests (with arbitrary request data). -/
inductive Reachable : Store → Prop
  | empty : Reachable Store.empty
  | create (c : LoanCreate) (db : Store) : Reachable db → Reachable (create_loan c db).2
  | update (i : Int) (u : LoanUpdate) (db : Store) :
      Reachable db → Reachable (update_loan i u db).2
  | delete (i : Int) (db : Store) : Reachable db → Reachable (delete_loan i db).2

/-! ## Client library (`client/loan_client.py`)

Each client method performs `self.session.<verb>(...)` and then feeds the
response to `_handle_response`.  We model the outcome of the `session`
call, and the exception (if any) escaping the method. -/

/-- The body of an HTTP response as the client decodes it: a JSON object
carrying a `detail` key, some other JSON value, or no content at all. -/
inductive RespBody where
  | jsonWithDetail (detail : String)
  | jsonOther
  | empty
deriving Repr, DecidableEq

/-- Outcome of a `session.get/post/put` call: either the server answered
with a status and body, or the transport failed (connection refused,
timeout) and the call raised a `requests` exception. -/
inductive HttpOutcome where
  | response (status : Nat) (body : RespBody)
  | connectionError (msg : String)
  | timeoutError (msg : String)
deriving Repr, DecidableEq

/-- The exception types that can escape a client method to the caller. -/
inductive PyException where
  | loanClientError (msg : String)
  | requestsConnectionError (msg : String)
  | requestsTimeout (msg : String)
deriving Repr, DecidableEq

/-- Whether an escaping exception is the uniform `LoanClientError` type. -/
def PyException.isLoanClientError : PyException → Bool
  | .loanClientError _ => true
  | _ => false

/-- Abstract rendering `str(e)` of the `HTTPError` raised by
`raise_for_status` for a given status code (the exact text comes from the
`requests` library and is opaque to the client code). -/
def httpErrorStr (status : Nat) : String :=
  "HTTP error for status " ++ toString status

/-- Abstract rendering `str(e)` of a `JSONDecodeError` raised by
`response.json()` on an empty body. -/
def jsonDecodeErrorStr : String := "Expecting value"

/-- `LoanClient._handle_response` (`client/loan_client.py` lines 64-73):
`raise_for_status` raises `HTTPError` for a 4xx/5xx status, which the first
except clause turns into `LoanClientError` with the body's `detail` when the
body is non-empty JSON carrying one, or `str(e)` otherwise; on a non-error
status, `response.json()` is returned, and a decode failure on an empty
body is a `RequestException` turned into `LoanClientError` by the second
except clause. -/
def handle_response (status : Nat) (body : RespBody) : Except PyException RespBody :=
  if 400 ≤ status ∧ status < 600 then
    match body with
    | .jsonWithDetail d => .error (.loanClientError ("API error: " ++ d))
    | .jsonOther => .error (.loanClientError ("API error: " ++ httpErrorStr status))
    | .empty => .error (.loanClientError ("API error: " ++ httpErrorStr status))
  else
    match body with
    | .empty => .error (.loanClientError ("Request failed: " ++ jsonDecodeErrorStr))
    | b => .ok b

/-- The shared shape of every client method (`create_loan`, `get_loan`,
`update_loan`, `list_loans`, `health_check`): run the `session` call, then
`_handle_response`.  The `session` call stands OUTSIDE the try block of
`_handle_response`, so a transport exception raised by it (connection
refused, timeout) propagates to the caller unchanged, as a raw `requests`
exception. -/
def client_request (outcome : HttpOutcome) : Except PyException RespBody :=
  match outcome with
  | .response status body => handle_response status body
  | .connectionError msg => .error (.requestsConnectionError msg)
  | .timeoutError msg => .error (.requestsTimeout msg)

/-! ## Helper lemmas -/

/-- The create validation accepts exactly the in-bound inputs. -/
lemma validateLoanCreate_eq_nil (c : LoanCreate) :
    validateLoanCreate c = [] ↔
      0 < c.amount ∧ 0 ≤ c.interest_rate ∧ 0 < c.length_months ∧ 0 < c.monthly_payment := by
  unfold validateLoanCreate
  split_ifs <;> simp_all

/-- A row built from an accepted create input satisfies the field bounds. -/
lemma mkLoan_validb (i : Int) (c : LoanCreate) (h : validateLoanCreate c = []) :
    (mkLoan i c).validb = true := by
  rw [validateLoanCreate_eq_nil] at h
  simp [Loan.validb, mkLoan, h.1, h.2.1, h.2.2.1, h.2.2.2]

/-- Applying an accepted update payload to an in-bound row keeps it in
bound: present fields were validated, absent fields are unchanged. -/
lemma applyUpdate_validb (l : Loan) (u : LoanUpdate) (hl : l.validb = true)
    (hu : validateLoanUpdate u = []) : (applyUpdate l u).validb = true := by
  obtain ⟨ua, ur, um, up⟩ := u
  simp only [Loan.validb, Bool.and_eq_true, decide_eq_true_eq] at hl
  unfold validateLoanUpdate at hu
  simp only [List.append_eq_nil] at hu
  obtain ⟨⟨⟨ha, hr⟩, hm⟩, hp⟩ := hu
  cases ua <;> cases ur <;> cases um <;> cases up <;>
    simp_all [Loan.validb, applyUpdate, Option.getD]

/-- Every member of a list of integers is at most the fold of `max` over
it (with base `0`). -/
lemma le_foldr_max (x : Int) (xs : List Int) (h : x ∈ xs) : x ≤ xs.foldr max 0 := by
  induction xs with
  | nil => cases h
  | cons y ys ih =>
    rcases List.mem_cons.mp h with rfl | hmem
    · exact le_max_left _ _
    · exact le_trans (ih hmem) (le_max_right _ _)

/-- The id assigned to the next insertion is strictly larger than every id
already in the store. -/
lemma id_lt_nextId (db : Store) (l : Loan) (h : l ∈ db.loans) : l.id < db.nextId := by
  have := le_foldr_max l.id (db.loans.map Loan.id) (List.mem_map_of_mem Loan.id h)
  unfold Store.nextId
  omega

/-- Looking up an id that no existing row carries, after appending a fresh
row carrying it, finds the fresh row. -/
lemma find?_append_fresh (xs : List Loan) (a : Loan)
    (h : ∀ l ∈ xs, l.id ≠ a.id) :
    (xs ++ [a]).find? (fun l => l.id == a.id) = some a := by
  induction xs with
  | nil => simp
  | cons y ys ih =>
    have hy : (y.id == a.id) = false := by
      simp [h y (List.mem_cons_self y ys)]
    simp only [List.cons_append, List.find?_cons, hy]
    exact ih fun l hl => h l (List.mem_cons_of_mem y hl)

/-- `applyUpdate` never touches the id. -/
lemma applyUpdate_id (l : Loan) (u : LoanUpdate) : (applyUpdate l u).id = l.id := rfl

/-- After an in-place update of the first row matching `i`, looking `i` up
finds exactly the updated version of the row it found before. -/
lemma find?_updateFirst (loans : List Loan) (i : Int) (u : LoanUpdate) :
    (updateFirst loans i u).find? (fun l => l.id == i) =
      (loans.find? (fun l => l.id == i)).map (fun l => applyUpdate l u) := by
  induction loans with
  | nil => rfl
  | cons y ys ih =>
    by_cases hy : y.id = i
    · simp [updateFirst, hy, List.find?_cons, applyUpdate_id]
    · have hy' : (y.id == i) = false := by simp [hy]
      simp [updateFirst, hy', List.find?_cons, ih]

/-- Every row surviving a delete was in the store before it. -/
lemma mem_deleteFirst (loans : List Loan) (i : Int) (l : Loan)
    (h : l ∈ deleteFirst loans i) : l ∈ loans := by
  induction loans with
  | nil => simp [deleteFirst] at h
  | cons y ys ih =>
    by_cases hy : y.id = i
    · have hy' : (y.id == i) = true := by simp [hy]
      simp only [deleteFirst, hy', if_true] at h
      exact List.mem_cons_of_mem y h
    · have hy' : (y.id == i) = false := by simp [hy]
      simp only [deleteFirst, hy', if_false] at h
      rcases List.mem_cons.mp h with rfl | hmem
      · exact List.mem_cons_self _ _
      · exact List.mem_cons_of_mem y (ih hmem)

/-- When ids are pairwise distinct, deleting the first row matching `i`
leaves no row matching `i` at all. -/
lemma find?_deleteFirst (loans : List Loan) (i : Int)
    (huniq : loans.Pairwise (fun a b => a.id ≠ b.id)) :
    (deleteFirst loans i).find? (fun l => l.id == i) = none := by
  induction loans with
  | nil => rfl
  | cons y ys ih =>
    rcases List.pairwise_cons.mp huniq with ⟨hy, hys⟩
    by_cases hyi : y.id = i
    · have hy' : (y.id == i) = true := by simp [hyi]
      simp only [deleteFirst, hy', if_true]
      rw [List.find?_eq_none]
      intro l hl
      have h2 := hy l hl
      simp only [beq_iff_eq]
      omega
    · have hy' : (y.id == i) = false := by simp [hyi]
      simp [deleteFirst, hy', List.find?_cons, ih hys]

/-- Updating the first row matching `i` with an accepted payload keeps
every row in bound. -/
lemma all_updateFirst (loans : List Loan) (i : Int) (u : LoanUpdate)
    (hu : validateLoanUpdate u = []) (h : loans.all Loan.validb = true) :
    (updateFirst loans i u).all Loan.validb = true := by
  induction loans with
  | nil => rfl
  | cons y ys ih =>
    simp only [List.all_cons, Bool.and_eq_true] at h
    by_cases hy : y.id = i
    · have hy' : (y.id == i) = true := by simp [hy]
      simp [updateFirst, hy', List.all_cons, applyUpdate_validb y u h.1 hu, h.2]
    · have hy' : (y.id == i) = false := by simp [hy]
      simp [updateFirst, hy', List.all_cons, h.1, ih h.2]

/-- Deleting a row keeps every remaining row in bound. -/
lemma all_deleteFirst (loans : List Loan) (i : Int)
    (h : loans.all Loan.validb = true) :
    (deleteFirst loans i).all Loan.validb = true := by
  rw [List.all_eq_true] at h ⊢
  exact fun l hl => h l (mem_deleteFirst loans i l hl)

/-- The empty payload changes nothing when applied to a row. -/
lemma applyUpdate_emptyUpdate (l : Loan) : applyUpdate l emptyUpdate = l := rfl

/-- The empty payload changes nothing when applied to the store. -/
lemma updateFirst_emptyUpdate (loans : List Loan) (i : Int) :
    updateFirst loans i emptyUpdate = loans := by
  induction loans with
  | nil => rfl
  | cons y ys ih =>
    by_cases hy : y.id = i
    · have hy' : (y.id == i) = true := by simp [hy]
      simp [updateFirst, hy', applyUpdate_emptyUpdate]
    · have hy' : (y.id == i) = false := by simp [hy]
      simp [updateFirst, hy', ih]

/-! ## Concrete data for witnesses and scenarios -/

/-- First sample loan of `seed_data.py`. -/
def sc1 : LoanCreate :=
  { amount := 250000, interest_rate := 4.5, length_months := 360, monthly_payment := 1266.71 }

/-- Second sample loan of `seed_data.py`. -/
def sc2 : LoanCreate :=
  { amount := 500000, interest_rate := 3.75, length_months := 360, monthly_payment := 2315.10 }

/-- Third sample loan of `seed_data.py`. -/
def sc3 : LoanCreate :=
  { amount := 150000, interest_rate := 5, length_months := 180, monthly_payment := 1186.19 }

/-- Fourth sample loan of `seed_data.py`. -/
def sc4 : LoanCreate :=
  { amount := 75000, interest_rate := 4.25, length_months := 240, monthly_payment := 459.88 }

/-- Fifth sample loan of `seed_data.py`. -/
def sc5 : LoanCreate :=
  { amount := 1000000, interest_rate := 3.5, length_months := 360, monthly_payment := 4490.44 }

/-- The store obtained by creating the five `seed_data.py` loans in order
against a fresh database. -/
def seedStore : Store :=
  [sc1, sc2, sc3, sc4, sc5].foldl (fun db c => (create_loan c db).2) Store.empty

/-- The five seed creates are accepted and assigned ids 1 through 5, in
insertion order. -/
lemma seedStore_eq : seedStore =
    Store.mk [mkLoan 1 sc1, mkLoan 2 sc2, mkLoan 3 sc3, mkLoan 4 sc4, mkLoan 5 sc5] := by
  norm_num [seedStore, sc1, sc2, sc3, sc4, sc5, create_loan, validateLoanCreate, mkLoan,
    Store.empty, Store.nextId, List.foldl]

/-- An in-bound create input used to instantiate universally quantified
theorems (integer-valued so that its validation is kernel-decidable). -/
def wGoodCreate : LoanCreate :=
  { amount := 1, interest_rate := 0, length_months := 12, monthly_payment := 2 }

/-- The out-of-bound create input of the spec's test scenario:
amount=0, rate=-1, months=0, payment=-5. -/
def wBadCreate : LoanCreate :=
  { amount := 0, interest_rate := -1, length_months := 0, monthly_payment := -5 }

/-- A concrete persisted row used to instantiate theorems. -/
def wLoan : Loan :=
  { id := 1, amount := 100, interest_rate := 5, length_months := 12, monthly_payment := 10 }

/-- A concrete one-row store used to instantiate theorems. -/
def wStore : Store := Store.mk [wLoan]

/-- A payload carrying only `interest_rate`, as in the spec's scenario. -/
def wUpd : LoanUpdate :=
  { amount := none, interest_rate := some 4, length_months := none, monthly_payment := none }

/-! ## The claims -/

/-- C1: a create request is accepted (201, row appended with the newly
assigned id) exactly when amount > 0, interest_rate >= 0,
length_months > 0 and monthly_payment > 0; when any bound is violated the
answer is 422 carrying the (non-empty) structured list of field errors and
the store — hence the list count — is unchanged. -/
theorem C1_create_validation_boundary (c : LoanCreate) (db : Store) :
    (create_loan c db =
        (CreateResult.created (mkLoan db.nextId c),
         Store.mk (db.loans ++ [mkLoan db.nextId c]))
      ↔ 0 < c.amount ∧ 0 ≤ c.interest_rate ∧ 0 < c.length_months ∧ 0 < c.monthly_payment)
    ∧ ((create_loan c db).1.status = 201
      ↔ 0 < c.amount ∧ 0 ≤ c.interest_rate ∧ 0 < c.length_months ∧ 0 < c.monthly_payment)
    ∧ (¬ (0 < c.amount ∧ 0 ≤ c.interest_rate ∧ 0 < c.length_months ∧ 0 < c.monthly_payment) →
      (create_loan c db).1 = CreateResult.validationError (validateLoanCreate c)
      ∧ validateLoanCreate c ≠ []
      ∧ (create_loan c db).1.status = 422
      ∧ (create_loan c db).2 = db) := by
  by_cases hb : 0 < c.amount ∧ 0 ≤ c.interest_rate ∧ 0 < c.length_months ∧ 0 < c.monthly_payment
  · have he : validateLoanCreate c = [] := (validateLoanCreate_eq_nil c).mpr hb
    refine ⟨?_, ?_, fun h => absurd hb h⟩ <;>
      simp [create_loan, he, CreateResult.status, hb]
  · have he : validateLoanCreate c ≠ [] := fun h => hb ((validateLoanCreate_eq_nil c).mp h)
    have hie : (validateLoanCreate c).isEmpty = false := by
      cases hx : validateLoanCreate c
      · exact absurd hx he
      · rfl
    refine ⟨?_, ?_, fun _ => ?_⟩ <;>
      simp [create_loan, hie, CreateResult.status, hb, he]

/-- Witness for C1 at concrete inputs: the in-bound input is accepted and
appended; the spec's out-of-bound input is answered 422 on an empty store
left empty. -/
theorem C1_witness :
    create_loan wGoodCreate Store.empty
      = (CreateResult.created (mkLoan Store.empty.nextId wGoodCreate),
         Store.mk (Store.empty.loans ++ [mkLoan Store.empty.nextId wGoodCreate]))
    ∧ (create_loan wBadCreate Store.empty).1.status = 422
    ∧ (create_loan wBadCreate Store.empty).2 = Store.empty := by
  have h1 := (C1_create_validation_boundary wGoodCreate Store.empty).1.mpr (by decide)
  have h2 := (C1_create_validation_boundary wBadCreate Store.empty).2.2 (by decide)
  exact ⟨h1, h2.2.2.1, h2.2.2.2⟩

/-- C2: on an existing row, an update (whose present fields pass
validation) overwrites exactly the fields present in the payload — each
field of the result is the payload's value when present and the prior value
when absent, the id is untouched — and a subsequent get of the same id
observes exactly the merged row. -/
theorem C2_partial_update_frame (i : Int) (db : Store) (u : LoanUpdate) (l : Loan)
    (hfind : db.findLoan i = some l) :
    ((update_loan i u db).2 = db
      ∨ (update_loan i u db).2 = Store.mk (updateFirst db.loans i u))
    ∧ (applyUpdate l u).id = l.id
    ∧ (applyUpdate l u).amount = u.amount.getD l.amount
    ∧ (applyUpdate l u).interest_rate = u.interest_rate.getD l.interest_rate
    ∧ (applyUpdate l u).length_months = u.length_months.getD l.length_months
    ∧ (applyUpdate l u).monthly_payment = u.monthly_payment.getD l.monthly_payment
    ∧ (validateLoanUpdate u = [] →
        update_loan i u db
          = (UpdateResult.ok (applyUpdate l u), Store.mk (updateFirst db.loans i u))
        ∧ get_loan i (update_loan i u db).2 = GetResult.ok (applyUpdate l u)) := by
  have hfind' : db.loans.find? (fun l => l.id == i) = some l := hfind
  have hsucc : validateLoanUpdate u = [] →
      update_loan i u db
        = (UpdateResult.ok (applyUpdate l u), Store.mk (updateFirst db.loans i u))
      ∧ get_loan i (update_loan i u db).2 = GetResult.ok (applyUpdate l u) := by
    intro hu
    have h1 : update_loan i u db
        = (UpdateResult.ok (applyUpdate l u), Store.mk (updateFirst db.loans i u)) := by
      simp [update_loan, hu, hfind]
    have hf : (updateFirst db.loans i u).find? (fun l => l.id == i)
        = some (applyUpdate l u) := by
      rw [find?_updateFirst, hfind']
      rfl
    refine ⟨h1, ?_⟩
    rw [h1]
    simp [get_loan, Store.findLoan, hf]
  refine ⟨?_, rfl, rfl, rfl, rfl, rfl, hsucc⟩
  by_cases hu : validateLoanUpdate u = []
  · exact Or.inr (congrArg Prod.snd (hsucc hu).1)
  · have hie : (validateLoanUpdate u).isEmpty = false := by
      cases hx : validateLoanUpdate u
      · exact absurd hx hu
      · rfl
    exact Or.inl (by simp [update_loan, hie])

/-- Witness for C2 at concrete inputs: updating the one-row store with a
payload carrying only `interest_rate` yields the merged row, observed by a
subsequent get. -/
theorem C2_witness :
    wStore.findLoan 1 = some wLoan
    ∧ validateLoanUpdate wUpd = []
    ∧ update_loan 1 wUpd wStore
      = (UpdateResult.ok (applyUpdate wLoan wUpd), Store.mk (updateFirst wStore.loans 1 wUpd))
    ∧ get_loan 1 (update_loan 1 wUpd wStore).2 = GetResult.ok (applyUpdate wLoan wUpd) := by
  have h := C2_partial_update_frame 1 wStore wUpd wLoan (by decide)
  have hs := h.2.2.2.2.2.2 (by decide)
  exact ⟨by decide, by decide, hs.1, hs.2⟩

/-- C3: for every in-bound create input, creating and then getting the id
returned by the create yields back exactly the record the create returned
(same id and same four business fields). -/
theorem C3_create_then_get (c : LoanCreate) (db : Store)
    (h : 0 < c.amount ∧ 0 ≤ c.interest_rate ∧ 0 < c.length_months ∧ 0 < c.monthly_payment) :
    (create_loan c db).1 = CreateResult.created (mkLoan db.nextId c)
    ∧ get_loan (mkLoan db.nextId c).id (create_loan c db).2
      = GetResult.ok (mkLoan db.nextId c) := by
  have he : validateLoanCreate c = [] := (validateLoanCreate_eq_nil c).mpr h
  have hfresh : ∀ l ∈ db.loans, l.id ≠ (mkLoan db.nextId c).id := by
    intro l hl
    have := id_lt_nextId db l hl
    simp only [mkLoan]
    omega
  have hf : (db.loans ++ [mkLoan db.nextId c]).find?
      (fun l => l.id == (mkLoan db.nextId c).id) = some (mkLoan db.nextId c) :=
    find?_append_fresh db.loans _ hfresh
  constructor
  · simp [create_loan, he]
  · simp [create_loan, he, get_loan, Store.findLoan, hf]

/-- Witness for C3 at a concrete in-bound input on the empty store. -/
theorem C3_witness :
    (0 < wGoodCreate.amount ∧ 0 ≤ wGoodCreate.interest_rate
      ∧ 0 < wGoodCreate.length_months ∧ 0 < wGoodCreate.monthly_payment)
    ∧ (create_loan wGoodCreate Store.empty).1
      = CreateResult.created (mkLoan Store.empty.nextId wGoodCreate)
    ∧ get_loan (mkLoan Store.empty.nextId wGoodCreate).id (create_loan wGoodCreate Store.empty).2
      = GetResult.ok (mkLoan Store.empty.nextId wGoodCreate) := by
  have h := C3_create_then_get wGoodCreate Store.empty (by decide)
  exact ⟨by decide, h.1, h.2⟩

/-- C4: for an id with no matching row, get, update (with a payload whose
present fields pass validation) and delete all answer 404 with detail
"Loan not found", and update and delete leave the store unchanged. -/
theorem C4_not_found_uniform (i : Int) (db : Store) (u : LoanUpdate)
    (habs : db.findLoan i = none) (hu : validateLoanUpdate u = []) :
    get_loan i db = GetResult.notFound "Loan not found"
    ∧ (get_loan i db).status = 404
    ∧ update_loan i u db = (UpdateResult.notFound "Loan not found", db)
    ∧ (update_loan i u db).1.status = 404
    ∧ delete_loan i db = (DeleteResult.notFound "Loan not found", db)
    ∧ (delete_loan i db).1.status = 404 := by
  have h1 : get_loan i db = GetResult.notFound "Loan not found" := by
    simp [get_loan, habs]
  have h2 : update_loan i u db = (UpdateResult.notFound "Loan not found", db) := by
    simp [update_loan, hu, habs]
  have h3 : delete_loan i db = (DeleteResult.notFound "Loan not found", db) := by
    simp [delete_loan, habs]
  exact ⟨h1, by rw [h1]; rfl, h2, by rw [h2]; rfl, h3, by rw [h3]; rfl⟩

/-- Witness for C4: id 999999 on the empty store, with the empty update
payload. -/
theorem C4_witness :
    Store.empty.findLoan 999999 = none
    ∧ validateLoanUpdate emptyUpdate = []
    ∧ get_loan 999999 Store.empty = GetResult.notFound "Loan not found"
    ∧ update_loan 999999 emptyUpdate Store.empty
      = (UpdateResult.notFound "Loan not found", Store.empty)
    ∧ delete_loan 999999 Store.empty = (DeleteResult.notFound "Loan not found", Store.empty) := by
  have h := C4_not_found_uniform 999999 Store.empty emptyUpdate (by decide) (by decide)
  exact ⟨by decide, by decide, h.1, h.2.2.1, h.2.2.2.2.1⟩

/-- C5: deleting an id present in a store with pairwise-distinct ids
answers 204 with the row removed; afterwards a get of that id and a second
delete of that id both answer 404 "Loan not found". -/
theorem C5_delete_then_absent (i : Int) (db : Store)
    (huniq : db.loans.Pairwise (fun a b => a.id ≠ b.id))
    (hfind : (db.findLoan i).isSome = true) :
    delete_loan i db = (DeleteResult.noContent, Store.mk (deleteFirst db.loans i))
    ∧ (delete_loan i db).1.status = 204
    ∧ (delete_loan i db).2.findLoan i = none
    ∧ get_loan i (delete_loan i db).2 = GetResult.notFound "Loan not found"
    ∧ delete_loan i (delete_loan i db).2
      = (DeleteResult.notFound "Loan not found", (delete_loan i db).2) := by
  obtain ⟨l, hl⟩ := Option.isSome_iff_exists.mp hfind
  have h1 : delete_loan i db = (DeleteResult.noContent, Store.mk (deleteFirst db.loans i)) := by
    simp [delete_loan, hl]
  have h2 : (Store.mk (deleteFirst db.loans i)).findLoan i = none :=
    find?_deleteFirst db.loans i huniq
  refine ⟨h1, by rw [h1]; rfl, ?_, ?_, ?_⟩
  · rw [h1]
    exact h2
  · rw [h1]
    simp [get_loan, h2]
  · rw [h1]
    simp [delete_loan, h2]

/-- Witness for C5 on the concrete one-row store. -/
theorem C5_witness :
    wStore.loans.Pairwise (fun a b => a.id ≠ b.id)
    ∧ (wStore.findLoan 1).isSome = true
    ∧ delete_loan 1 wStore = (DeleteResult.noContent, Store.mk (deleteFirst wStore.loans 1))
    ∧ get_loan 1 (delete_loan 1 wStore).2 = GetResult.notFound "Loan not found"
    ∧ delete_loan 1 (delete_loan 1 wStore).2
      = (DeleteResult.notFound "Loan not found", (delete_loan 1 wStore).2) := by
  have h := C5_delete_then_absent 1 wStore (by simp [wStore]) (by decide)
  exact ⟨by simp [wStore], by decide, h.1, h.2.2.2.1, h.2.2.2.2⟩

/-- C6: list returns the stored rows in insertion/id order with the first
`skip` omitted and at most `limit` kept, exactly min(limit, count - skip)
many; the query parameters default to 0 and 100; on the store of the five
seed rows (ids 1..5 inserted in order), list(0,2) is exactly the first two
rows and list(4,100) exactly the fifth. -/
theorem C6_list_pagination (db : Store) (skip limit : Nat) :
    list_loans skip limit db = (db.loans.drop skip).take limit
    ∧ (list_loans skip limit db).length = min limit (db.loans.length - skip)
    ∧ DEFAULT_SKIP = 0 ∧ DEFAULT_LIMIT = 100
    ∧ list_loans 0 2 seedStore = [mkLoan 1 sc1, mkLoan 2 sc2]
    ∧ list_loans 4 100 seedStore = [mkLoan 5 sc5] := by
  refine ⟨rfl, ?_, rfl, rfl, ?_, ?_⟩
  · simp [list_loans]
  · rw [seedStore_eq]
    rfl
  · rw [seedStore_eq]
    rfl

/-- C7 (divergence at the failing input): a transport-unreachable
condition escapes a client method as a raw `requests` connection error, not
as `LoanClientError` — `session.get/post/put` is evaluated outside the try
block of `_handle_response`, although every docstring of the client
promises `LoanClientError` — while a non-2xx response with a JSON `detail`
body is indeed turned into `LoanClientError` carrying the server detail. -/
theorem C7_transport_error_escapes :
    client_request (HttpOutcome.connectionError "Connection refused")
      = Except.error (PyException.requestsConnectionError "Connection refused")
    ∧ (PyException.requestsConnectionError "Connection refused").isLoanClientError = false
    ∧ client_request (HttpOutcome.timeoutError "Read timed out")
      = Except.error (PyException.requestsTimeout "Read timed out")
    ∧ client_request (HttpOutcome.response 404 (RespBody.jsonWithDetail "Loan not found"))
      = Except.error (PyException.loanClientError "API error: Loan not found")
    ∧ client_request (HttpOutcome.response 422 (RespBody.jsonWithDetail "validation error"))
      = Except.error (PyException.loanClientError "API error: validation error") := by
  exact ⟨rfl, rfl, rfl, rfl, rfl⟩

/-- C8: every store reachable from the fresh database by any sequence of
create, update and delete requests contains only rows satisfying
amount > 0, interest_rate >= 0, length_months > 0, monthly_payment > 0:
both create and update validate before persisting anything. -/
theorem C8_reachable_invariant (db : Store) (h : Reachable db) :
    db.loans.all Loan.validb = true := by
  induction h with
  | empty => rfl
  | create c db hdb ih =>
    by_cases hv : validateLoanCreate c = []
    · have hie : (validateLoanCreate c).isEmpty = true := by simp [hv]
      simp [create_loan, hie, List.all_append, ih, mkLoan_validb _ c hv]
    · have hie : (validateLoanCreate c).isEmpty = false := by
        cases hx : validateLoanCreate c
        · exact absurd hx hv
        · rfl
      simp [create_loan, hie, ih]
  | update i u db hdb ih =>
    by_cases hv : validateLoanUpdate u = []
    · have hie : (validateLoanUpdate u).isEmpty = true := by simp [hv]
      cases hf : db.findLoan i with
      | none => simp [update_loan, hie, hf, ih]
      | some l => simp [update_loan, hie, hf, all_updateFirst db.loans i u hv ih]
    · have hie : (validateLoanUpdate u).isEmpty = false := by
        cases hx : validateLoanUpdate u
        · exact absurd hx hv
        · rfl
      simp [update_loan, hie, ih]
  | delete i db hdb ih =>
    cases hf : db.findLoan i with
    | none => simp [delete_loan, hf, ih]
    | some l => simp [delete_loan, hf, all_deleteFirst db.loans i ih]

/-- Witness for C8: the store reached by one accepted create satisfies the
invariant. -/
theorem C8_witness :
    ((create_loan wGoodCreate Store.empty).2).loans.all Loan.validb = true :=
  C8_reachable_invariant _ (Reachable.create wGoodCreate Store.empty Reachable.empty)

/-- C9: the health check answers 200 with the same fixed message for every
store, and passes the store through untouched — the handler takes no
database dependency at all. -/
theorem C9_health_check_constant (db : Store) :
    handle_root db = ((200, "LoanStreet Loan Management API is running"), db) := rfl

/-- C10: on an id present in the store, an update with the empty payload
answers 200 with the row exactly as currently stored and leaves the store
unchanged: the empty update is an identity, not an error. -/
theorem C10_empty_update_identity (i : Int) (db : Store) (l : Loan)
    (hfind : db.findLoan i = some l) :
    update_loan i emptyUpdate db = (UpdateResult.ok l, db)
    ∧ (update_loan i emptyUpdate db).1.status = 200 := by
  have h1 : update_loan i emptyUpdate db = (UpdateResult.ok l, db) := by
    simp [update_loan, hfind, applyUpdate_emptyUpdate, updateFirst_emptyUpdate]
    rfl
  exact ⟨h1, by rw [h1]; rfl⟩

/-- Witness for C10 on the concrete one-row store. -/
theorem C10_witness :
    wStore.findLoan 1 = some wLoan
    ∧ update_loan 1 emptyUpdate wStore = (UpdateResult.ok wLoan, wStore)
    ∧ (update_loan 1 emptyUpdate wStore).1.status = 200 := by
  have h := C10_empty_update_identity 1 wStore wLoan (by decide)
  exact ⟨by decide, h.1, h.2⟩
